import Mathlib

/-!
Verification of the AeroVECTOR aerodynamic core (`rocket_functions.py`)
against its natural-language specification.

Modelling conventions, used throughout:

* Python floats are modelled as elements of a linear ordered field `K`
  (instantiated at `ℚ` for concrete evaluations and at `ℝ` for the
  analytic claims).  Transcendental library functions (`np.sin`,
  `np.cos`, `np.sqrt`, `np.arctan`, `np.pi`) are passed as explicit
  parameters; the `ℝ` instantiations use `Real.sin`, `Real.pi`, …
* Python exceptions (ZeroDivisionError on float division, IndexError,
  ValueError from `np.interp`, NameError from an unbound variable) are
  modelled by `Option`: `none` means the call raises.
* `x / y` on values where the source guarantees `y ≠ 0` is the field
  division; the one place the source divides by a quantity that can be
  zero (`Airfoil._calculate_cn_alpha`) is tracked separately by
  `slopeDivisionAngles`.
-/

namespace AeroVECTOR

variable {K : Type} [LinearOrderedField K]

/-- Linear interpolation over a list of `(x, y)` sample points,
mirroring `np.interp` on a non-decreasing sample grid: clamps to the
first `y` for `x` below the grid, to the last `y` above it, and
interpolates linearly inside (at a grid point it returns that point's
`y`). -/
def interpPts (x : K) : List (K × K) → K
  | [] => 0
  | [p] => p.2
  | p :: q :: rest =>
      if x ≤ p.1 then p.2
      else if x ≤ q.1 then p.2 + (q.2 - p.2) * (x - p.1) / (q.1 - p.1)
      else interpPts x (q :: rest)

/-- `np.interp(x, xp, fp)`: raises `ValueError` (here `none`) when the
sample list is empty or when `xp` and `fp` have different lengths. -/
def np_interp (x : K) (xp fp : List K) : Option K :=
  if xp.length = fp.length ∧ xp.length ≠ 0 then some (interpPts x (xp.zip fp))
  else none

/-! ## Airfoil (class `Airfoil`, lines 23-159) -/

/-- The three table-selection flags set in `Airfoil.__init__`
(`use_2pi`, `use_windtunel`, `use_windtunnel_modified`). -/
structure AirfoilCfg where
  use_2pi : Bool
  use_windtunel : Bool
  use_windtunnel_modified : Bool

/-- Default configuration from `Airfoil.__init__` (lines 47-49). -/
def defaultAirfoilCfg : AirfoilCfg :=
  { use_2pi := false, use_windtunel := false, use_windtunnel_modified := true }

/-- `self.aoa_cl` (lines 58-64). -/
def aoa_cl : List K := [0.0, 0.08386924860853417, 0.1620549165120595,
    0.25889438775510176, 0.4498044063079776, 0.62461094619666,
    0.7766831632653057, 0.9458061224489793, 1.1321255565862705,
    1.3189550556586267, 1.595045918367347, 1.846872263450835,
    2.0253221243042674, 2.2514994897959184, 2.4605532467532463,
    2.6914669294990725, 2.83479517625232, 2.98810612244898,
    3.105202458256029, 3.150015306122449]

/-- `self.cl_list` (lines 65-70). -/
def cl_list : List K := [0.0, 0.5363636363636364, 0.781818181818182, 0.7,
    0.8818181818181818, 1.0727272727272728, 1.1, 1.0,
    0.7545454545454546, 0.44545454545454555, 0.0,
    -0.418181818181818, -0.6818181818181817, -0.9000000000000004,
    -0.9818181818181819, -0.790909090909091, -0.6727272727272728,
    -0.8000000000000003, -0.40909090909090917, 0.0]

/-- `self.aoa_cl_modified` (lines 72-74). -/
def aoa_cl_modified : List K := [0.0, 0.13658937500000003, 0.7249800000000002,
    0.9137768750000002, 1.0950218750000003, 1.57079,
    2.0239025, 2.4166, 2.937679375, 3.103820625]

/-- `self.cl_list_modified` (lines 75-78). -/
def cl_list_modified : List K := [0.0, 0.7739130434782606, 1.1043478260869564,
    1.026086956521739, 0.8086956521739128, 0.0,
    -0.7217391304347824, -0.991304347826087,
    -0.8086956521739128, -0.008695652173913215]

/-- `self.aoa_cd` (lines 80-85). -/
def aoa_cd : List K := [0, 0.18521494914149783, 0.3982734933252401,
    0.7643841635684416, 1.10988734808282, 1.3509577689207464,
    1.5468165300174515, 1.7918205335344766, 1.960067086805354,
    2.1704261134642255, 2.359869138105717, 2.4862486286726804,
    2.668785095490799, 2.819614501925884, 2.9527883625749265,
    3.040406988525037, 3.1349532075000113, 3.1415972095888027]

/-- `self.cd_list` (lines 86-92). -/
def cd_list : List K := [0.001, 0.11315179890472304, 0.3266637804448056,
    1.053982763006967, 1.5607557140498007, 1.7623865781756995,
    1.8074741244259172, 1.7606280656808881, 1.5891418548289915,
    1.3457262344177494, 1.0581157136927424, 0.8182796034866748,
    0.47852963361347545, 0.262866375366543, 0.13929739838341826,
    0.05557613600353495, 0.011970382007828295,
    0.0009187156610269724]

/-- `Airfoil.__sign_correction` (lines 131-137). -/
def sign_correction (aoa : K) : K := if 0 ≤ aoa then 1 else -1

/-- `Airfoil._calculate_cn_ca` (lines 101-123), returning `(cn, ca)`.
`none` models the `UnboundLocalError` raised when neither wind-tunnel
flag is set (no interpolation table is selected). -/
def calculate_cn_ca (cfg : AirfoilCfg) (sinK cosK : K → K) (aoa : K) :
    Option (K × K) := do
  let sgn := sign_correction aoa
  let x := |aoa|
  let tabs ←
    if cfg.use_windtunel then some ((aoa_cl : List K), (cl_list : List K))
    else if cfg.use_windtunnel_modified then
      some ((aoa_cl_modified : List K), (cl_list_modified : List K))
    else none
  let cl ← np_interp x tabs.1 tabs.2
  let cd ← np_interp x aoa_cd cd_list
  let cn := sgn * (cl * cosK x + cd * sinK x)
  let ca := -cl * sinK x + cd * cosK x
  return (cn, ca)

/-- `Airfoil._calculate_cn_alpha` (lines 125-129): the slope is
`cn / aoa`, overwritten by `2*np.pi` when `use_2pi` is set.  (The
division is executed in both cases; field division is total here, and
the zero-divisor occurrences are tracked by `slopeDivisionAngles`.) -/
def calculate_cn_alpha_val (cfg : AirfoilCfg) (piK cn aoa : K) : K :=
  if cfg.use_2pi then 2 * piK else cn / aoa

/-- `Airfoil.get_aero_coef` (lines 139-159): returns `(cn, ca, cn_alpha)`. -/
def get_aero_coef (cfg : AirfoilCfg) (sinK cosK : K → K) (piK : K) (aoa : K) :
    Option (K × K × K) :=
  (calculate_cn_ca cfg sinK cosK aoa).map fun p =>
    (p.1, p.2, calculate_cn_alpha_val cfg piK p.1 aoa)

/-! ## Angle substitution and the slope divisions (claim C1) -/

/-- The angle substitution at the top of `Rocket._calculate_total_cn`
(lines 659-662): `if aoa == 0: aoa = 0.0001 else: aoa = abs(aoa)`. -/
def aoa_substitute (aoa : K) : K := if aoa = 0 then 0.0001 else |aoa|

/-- The angles at which `Airfoil._calculate_cn_alpha` executes the
division `self.cn / aoa` (line 127) during one
`Rocket.calculate_aero_coef` call.  When `use_fins` is true (lines
666-667), `Rocket._fin_cn` evaluates `fin[0]` at the substituted angle
(line 596) and `fin[1]` at `self.aoa_ctrl_fin` (line 628), which
`calculate_aero_coef` set to `aoa - actuator_angle` from the raw,
unsubstituted `aoa` (line 570). -/
def slopeDivisionAngles (use_fins : Bool) (aoa actuator_angle : K) : List K :=
  if use_fins then [aoa_substitute aoa, aoa - actuator_angle] else []

/-! ## Mach clamp and the Prandtl-Glauert factor (claim C3,
`Rocket.calculate_aero_coef`, lines 564-568) -/

/-- The value stored in `self.mach` (lines 564-567). -/
def mach_clamped (mach : K) : K := if mach < 0.001 then 0.001 else mach

/-- The radicand of the Prandtl-Glauert factor: line 568 computes
`self.beta = np.sqrt(1 - mach**2)` from the raw `mach` argument. -/
def beta_radicand (mach : K) : K := 1 - mach ^ 2

/-- `self.beta` (line 568) for a given square-root function. -/
def beta_of (sqrtK : K → K) (mach : K) : K := sqrtK (beta_radicand mach)

/-! ## Rocket state: motor and pad latch (`Rocket.__init__`,
`set_motor`, `get_thrust`, `burnout_time`, `is_in_the_pad`,
`reset_variables`; lines 336-346, 842-919) -/

/-- The `Rocket` instance fields touched by the motor and pad-latch
methods (lines 336-346). -/
structure RocketState (K : Type) where
  thrust : K
  cn : K
  xcp : K
  ca : K
  motor : List K × List K
  is_in_the_pad_flag : Bool

/-- The state set by `Rocket.__init__`: `self.motor = [[],[]]`,
`self.is_in_the_pad_flag = True` (lines 336-346). -/
def rocketInit : RocketState K :=
  { thrust := 0, cn := 0, xcp := 0, ca := 0, motor := ([], []),
    is_in_the_pad_flag := true }

/-- `Rocket.set_motor` (lines 842-858): copies the two data lists into
`self.motor`. -/
def set_motor (r : RocketState K) (data : List K × List K) : RocketState K :=
  { r with motor := (data.1, data.2) }

/-- `Rocket.get_thrust` (lines 860-881): `np.interp(t - t_launch,
motor[0], motor[1])`, floored at `0.001`.  `none` models the
`ValueError` numpy raises on an empty sample list. -/
def get_thrust (r : RocketState K) (t t_launch : K) : Option K :=
  (np_interp (t - t_launch) r.motor.1 r.motor.2).map fun th =>
    if th < 0.001 then 0.001 else th

/-- `Rocket.burnout_time` (lines 901-910): `self.motor[0][-1]`; `none`
models the `IndexError` on an empty list. -/
def burnout_time (r : RocketState K) : Option K := r.motor.1.getLast?

/-- One call of `Rocket.is_in_the_pad` (lines 883-899): the flag is
cleared when `alt > 0.2` finds it still set, and the (updated) flag is
returned. -/
def is_in_the_pad_step (alt : K) (flag : Bool) : Bool :=
  if 0.2 < alt ∧ flag = true then false else flag

/-- The values returned by successive `is_in_the_pad` calls on the
altitude list `alts`, starting from flag state `flag`. -/
def padOutputs (alts : List K) (flag : Bool) : List Bool :=
  match alts with
  | [] => []
  | a :: rest =>
      let f := is_in_the_pad_step a flag
      f :: padOutputs rest f

/-- `Rocket.reset_variables` (lines 912-919). -/
def reset_variables (r : RocketState K) : RocketState K :=
  { r with
      thrust := 0
      cn := 0
      xcp := 0
      ca := 0
      motor := ([], [])
      is_in_the_pad_flag := true }

/-- Spec-side description of the pad latch: the i-th returned value is
true exactly when every altitude seen so far (a prefix of the call
list) stayed at or below `0.2`. -/
def padLatchSpec (alts : List K) : List Bool :=
  (List.range alts.length).map fun i =>
    (alts.take (i + 1)).all fun a => decide (a ≤ 0.2)

/-! ## Body geometry (`Rocket.__initialize`, `Rocket._update_rocket_dim`
and helpers; lines 408-416, 451-508) -/

/-- Consecutive station pairs: the loop `for i in range(len(rocket_dim)-1)`
reads `rocket_dim[i]` and `rocket_dim[i+1]`. -/
def segPairs (dims : List (K × K)) : List ((K × K) × (K × K)) :=
  dims.zip dims.tail

/-- `Rocket._maximum_diameter` (lines 503-508). -/
def maximum_diameter (dims : List (K × K)) : K :=
  dims.foldl (fun d p => if d < p.2 then p.2 else d) 0

/-- `self.station_cross_area` after the fill loop (lines 465-473):
initialized to `[0]*n` by `__initialize`, entry `i+1` set to
`pi * r2 ** 2`; entry `0` is never written. -/
def station_cross_area_of (piK : K) (dims : List (K × K)) : List K :=
  0 :: (segPairs dims).map fun p => piK * (p.2.2 / 2) ^ 2

/-- `self.component_plan_area` after the fill loop (lines 474-475):
`plan_area = l * (r1 + r2)`. -/
def component_plan_area_of (dims : List (K × K)) : List K :=
  (segPairs dims).map fun p => (p.2.1 - p.1.1) * (p.1.2 / 2 + p.2.2 / 2)

/-- `self.component_volume` after the fill loop (lines 476-477):
frustum volume `(1/3) * pi * l * (r1² + r2² + r1*r2)`. -/
def component_volume_of (piK : K) (dims : List (K × K)) : List K :=
  (segPairs dims).map fun p =>
    1 / 3 * piK * (p.2.1 - p.1.1)
      * ((p.1.2 / 2) ^ 2 + (p.2.2 / 2) ^ 2 + p.1.2 / 2 * (p.2.2 / 2))

/-- `self.component_centroid` after the fill loop (lines 478-479):
`(l * (2*r2 + r1)) / (3 * (r1 + r2))`. -/
def component_centroid_of (dims : List (K × K)) : List K :=
  (segPairs dims).map fun p =>
    (p.2.1 - p.1.1) * (2 * (p.2.2 / 2) + p.1.2 / 2)
      / (3 * (p.1.2 / 2 + p.2.2 / 2))

/-- `self.area_wet_component` (lines 492-498):
`pi * (r1+r2) * sqrt((r2-r1)² + l²)`. -/
def area_wet_component_of (piK : K) (sqrtK : K → K) (dims : List (K × K)) :
    List K :=
  (segPairs dims).map fun p =>
    piK * (p.1.2 / 2 + p.2.2 / 2)
      * sqrtK ((p.2.2 / 2 - p.1.2 / 2) ^ 2 + (p.2.1 - p.1.1) ^ 2)

/-- The length of the first segment, `rocket_dim[1][0] - rocket_dim[0][0]`,
used by the ogive override (lines 480-485). -/
def first_seg_len (dims : List (K × K)) : K :=
  ((dims[1]?).getD (0, 0)).1 - ((dims[0]?).getD (0, 0)).1

/-- The derived body-geometry state written by `Rocket.__initialize`
(lines 408-416) and `Rocket._update_rocket_dim` (lines 451-486) together
with `_compute_total_rocket_plan_area` and `_calculate_wet_area_body`. -/
structure BodyArrays (K : Type) where
  component_cn : List K
  component_cn_alpha : List K
  component_cm : List K
  station_cross_area : List K
  component_plan_area : List K
  component_volume : List K
  component_centroid : List K
  max_diam : K
  length : K
  diameter : K
  fineness : K
  area_ref : K
  plan_area : K
  area_wet_component : List K
  area_wet_body : K
deriving DecidableEq

/-- `Rocket._update_rocket_dim` (lines 451-486).  `none` models the
Python exceptions possible at configuration time: an `IndexError` when
fewer than two stations are given (`rocket_dim[1]`), a
`ZeroDivisionError` in `fineness = length / max_diam` when the maximum
diameter is zero, and a `ZeroDivisionError` in the centroid formula
when some segment has `r1 + r2 = 0`.  Note `plan_area`:
`_compute_total_rocket_plan_area` runs right after `__initialize`
zeroed `component_plan_area` and before the fill loop, so it always
sums zeros. -/
def update_rocket_dim (piK : K) (sqrtK : K → K) (ogive : Bool)
    (l : List (K × K)) : Option (BodyArrays K) :=
  if 2 ≤ l.length ∧ maximum_diameter l ≠ 0 ∧
      ∀ p ∈ segPairs l, p.1.2 / 2 + p.2.2 / 2 ≠ 0 then
    some
      { component_cn := List.replicate (l.length - 1) 0
        component_cn_alpha := List.replicate (l.length - 1) 0
        component_cm := List.replicate (l.length - 1) 0
        station_cross_area := station_cross_area_of piK l
        component_plan_area :=
          if ogive then
            (component_plan_area_of l).set 0
              (2 / 3 * first_seg_len l * ((l[1]?).getD (0, 0)).2)
          else component_plan_area_of l
        component_volume := component_volume_of piK l
        component_centroid :=
          if ogive then
            (component_centroid_of l).set 0 (0.4625 * first_seg_len l)
          else component_centroid_of l
        max_diam := maximum_diameter l
        length := ((l.getLast?).getD (0, 0)).1
        diameter := ((l[1]?).getD (0, 0)).2
        fineness := ((l.getLast?).getD (0, 0)).1 / maximum_diameter l
        area_ref := piK * (maximum_diameter l / 2) ^ 2
        plan_area := 0
        area_wet_component := area_wet_component_of piK sqrtK l
        area_wet_body := (area_wet_component_of piK sqrtK l).sum }
  else none

/-- A concrete three-station cone-cylinder body used for witnesses:
stations `[(0,0), (2,2), (4,2)]`. -/
def dims1 : List (ℚ × ℚ) := [(0, 0), (2, 2), (4, 2)]

/-- The body arrays produced by `update_rocket_dim` on `dims1` with
`pi` mocked as `3` and `sqrt` as the identity. -/
def bodyArraysExample : BodyArrays ℚ :=
  { component_cn := [0, 0]
    component_cn_alpha := [0, 0]
    component_cm := [0, 0]
    station_cross_area := [0, 3, 3]
    component_plan_area := [2, 4]
    component_volume := [2, 6]
    component_centroid := [4 / 3, 1]
    max_diam := 2
    length := 4
    diameter := 2
    fineness := 2
    area_ref := 3
    plan_area := 0
    area_wet_component := [15, 24]
    area_wet_body := 39 }

/-- The loop of `Rocket._calculate_pressure_drag` (lines 787-798), with
the `phi` variable threaded as state.  On a zero-length segment the
`(r2-r1)/l` division raises `ZeroDivisionError`, which the source
catches and merely prints, leaving `phi` at its previous value; on the
first segment `phi` is unbound there, so the subsequent use raises
`NameError` (modelled by `none`). -/
def pressure_drag_loop (atanK sinK : K → K) :
    List ((K × K) × (K × K)) → Option K → Option (List K)
  | [], _ => some []
  | p :: rest, phi0 =>
      if p.2.1 - p.1.1 = 0 then
        match phi0 with
        | none => none
        | some phi =>
            (pressure_drag_loop atanK sinK rest (some phi)).map
              fun cds => 0.8 * sinK phi ^ 2 :: cds
      else
        (pressure_drag_loop atanK sinK rest
            (some (atanK ((p.2.2 / 2 - p.1.2 / 2) / (p.2.1 - p.1.1))))).map
          fun cds =>
            0.8 * sinK (atanK ((p.2.2 / 2 - p.1.2 / 2) / (p.2.1 - p.1.1))) ^ 2
              :: cds

/-- `Rocket._calculate_pressure_drag` (lines 787-800): run per
`evaluate` query, with the ogive override of entry `0` (lines
799-800). -/
def calculate_pressure_drag (atanK sinK : K → K) (ogive : Bool)
    (dims : List (K × K)) : Option (List K) :=
  (pressure_drag_loop atanK sinK (segPairs dims) none).map fun cds =>
    if ogive then cds.set 0 0 else cds

/-- A four-station body whose middle segment has zero length:
stations `[(0,0), (1,1), (1,1), (2,1)]`. -/
def dims0 : List (ℚ × ℚ) := [(0, 0), (1, 1), (1, 1), (2, 1)]

/-! ## Center of pressure (`Rocket._calculate_cp_position`, lines
684-704) -/

/-- `Rocket._calculate_cp_position` (lines 684-704) as a function of the
state it reads: the body loop accumulates
`a += (component_centroid[i] + rocket_dim[i][0]) * component_cn_alpha[i]`
and `b += component_cn_alpha[i]`; with fins enabled both fins add
`fin.cp * cn_alpha_fin` and `cn_alpha_fin`; then `cp = a/b` when
`b != 0`, else `cp = component_centroid[0]`. -/
def calculate_cp_position (component_cn_alpha component_centroid : List K)
    (rocket_dim : List (K × K)) (use_fins : Bool)
    (fin_cp fin_cn_alpha : K × K) : K :=
  let a0 := ((component_cn_alpha.zip (component_centroid.zip rocket_dim)).map
      fun q => (q.2.1 + q.2.2.1) * q.1).sum
  let b0 := component_cn_alpha.sum
  let a := if use_fins
    then a0 + fin_cp.1 * fin_cn_alpha.1 + fin_cp.2 * fin_cn_alpha.2 else a0
  let b := if use_fins
    then b0 + fin_cn_alpha.1 + fin_cn_alpha.2 else b0
  if b ≠ 0 then a / b else component_centroid.headD 0

/-- The spec's list of contributors: each body segment as
`(centroid location, local CN slope)`, followed (when fins are enabled)
by both fins as `(fin CP, fin CN slope)`. -/
def cpContribs (component_cn_alpha component_centroid : List K)
    (rocket_dim : List (K × K)) (use_fins : Bool)
    (fin_cp fin_cn_alpha : K × K) : List (K × K) :=
  ((component_cn_alpha.zip (component_centroid.zip rocket_dim)).map
      fun q => (q.2.1 + q.2.2.1, q.1))
    ++ (if use_fins
        then [(fin_cp.1, fin_cn_alpha.1), (fin_cp.2, fin_cn_alpha.2)]
        else [])

/-! ## Total normal-force coefficient without fins
(`Rocket._calculate_total_cn`, lines 656-674, with `use_fins = False`) -/

/-- `Rocket._calculate_total_cn` (lines 656-674) with fins disabled:
`__sign_correction` (lines 676-682) gives `-1` for `aoa >= 0`, the
angle substitution is `aoa_substitute`, `_barrowman_cn` (lines 576-580)
fills `component_cn[i] = (2*sin(aoa)/area_ref) *
(crossArea[i+1] - crossArea[i])`, `_body_cn` (lines 582-589) adds
`1.1 * (planArea[i]/area_ref) * sin(aoa)**2`, and the result is the
sign-corrected sum of `component_cn`. -/
def calculate_total_cn_nofins (sinK : K → K)
    (station_cross_area component_plan_area : List K) (area_ref : K)
    (aoa : K) : K :=
  let sgn : K := if 0 ≤ aoa then -1 else 1
  let aoa2 := aoa_substitute aoa
  let barrowman := (station_cross_area.zip station_cross_area.tail).map
      fun p => 2 * sinK aoa2 / area_ref * (p.2 - p.1)
  let body := component_plan_area.map
      fun pa => 1.1 * (pa / area_ref) * sinK aoa2 ^ 2
  sgn * (List.zipWith (fun x y => x + y) barrowman body).sum

/-- The cone-cylinder stations of claim C4: `[(0,0), (1,1), (2,1)]`. -/
def coneCylDims : List (ℝ × ℝ) := [(0, 0), (1, 1), (2, 1)]

/-- The CN returned by `calculate_aero_coef` for the cone-cylinder body
with fins disabled, instantiated with `np.pi` and real sine, as a
function of the angle of attack (the Mach number does not enter the
fin-less CN path). -/
noncomputable def coneCylCN (aoa : ℝ) : ℝ :=
  calculate_total_cn_nofins Real.sin
    (station_cross_area_of Real.pi coneCylDims)
    (component_plan_area_of coneCylDims)
    (Real.pi * (maximum_diameter coneCylDims / 2) ^ 2)
    aoa

/-! ## Theorems -/

theorem np_interp_eq (x : K) (xp fp : List K)
    (h : xp.length = fp.length ∧ xp.length ≠ 0) :
    np_interp x xp fp = some (interpPts x (xp.zip fp)) := by
  rw [np_interp, if_pos h]

theorem interpPts_head_of_le (x : K) (p : K × K) (l : List (K × K))
    (h : x ≤ p.1) : interpPts x (p :: l) = p.2 := by
  cases l with
  | nil => rfl
  | cons q rest => simp [interpPts, h]

/-- The cl tables evaluate to `0` at angle `0` (their first sample is
`(0, 0)`). -/
theorem cl_tables_at_zero :
    interpPts (0 : K) ((aoa_cl (K := K)).zip cl_list) = 0 ∧
    interpPts (0 : K) ((aoa_cl_modified (K := K)).zip cl_list_modified) = 0 := by
  have h0 : (0.0 : K) = 0 := by norm_num
  constructor
  · rw [aoa_cl, cl_list]
    simp only [List.zip_cons_cons]
    rw [interpPts_head_of_le (0 : K) _ _ (le_of_eq h0.symm)]
    exact h0
  · rw [aoa_cl_modified, cl_list_modified]
    simp only [List.zip_cons_cons]
    rw [interpPts_head_of_le (0 : K) _ _ (le_of_eq h0.symm)]
    exact h0

theorem np_interp_cl (x : K) :
    np_interp x (aoa_cl : List K) cl_list
      = some (interpPts x ((aoa_cl (K := K)).zip cl_list)) :=
  np_interp_eq x _ _ (by constructor <;> simp [aoa_cl, cl_list])

theorem np_interp_cl_modified (x : K) :
    np_interp x (aoa_cl_modified : List K) cl_list_modified
      = some (interpPts x ((aoa_cl_modified (K := K)).zip cl_list_modified)) :=
  np_interp_eq x _ _ (by constructor <;> simp [aoa_cl_modified, cl_list_modified])

theorem np_interp_cd (x : K) :
    np_interp x (aoa_cd : List K) cd_list
      = some (interpPts x ((aoa_cd (K := K)).zip cd_list)) :=
  np_interp_eq x _ _ (by constructor <;> simp [aoa_cd, cd_list])

theorem calculate_cn_ca_raw (u2 um : Bool) (sinK cosK : K → K) (aoa : K) :
    calculate_cn_ca ⟨u2, true, um⟩ sinK cosK aoa = some
      (sign_correction aoa * (interpPts |aoa| ((aoa_cl (K := K)).zip cl_list) * cosK |aoa|
          + interpPts |aoa| ((aoa_cd (K := K)).zip cd_list) * sinK |aoa|),
        -interpPts |aoa| ((aoa_cl (K := K)).zip cl_list) * sinK |aoa|
          + interpPts |aoa| ((aoa_cd (K := K)).zip cd_list) * cosK |aoa|) := by
  simp [calculate_cn_ca, np_interp_cl, np_interp_cd]

theorem calculate_cn_ca_modified (u2 : Bool) (sinK cosK : K → K) (aoa : K) :
    calculate_cn_ca ⟨u2, false, true⟩ sinK cosK aoa = some
      (sign_correction aoa
          * (interpPts |aoa| ((aoa_cl_modified (K := K)).zip cl_list_modified) * cosK |aoa|
            + interpPts |aoa| ((aoa_cd (K := K)).zip cd_list) * sinK |aoa|),
        -interpPts |aoa| ((aoa_cl_modified (K := K)).zip cl_list_modified) * sinK |aoa|
          + interpPts |aoa| ((aoa_cd (K := K)).zip cd_list) * cosK |aoa|) := by
  simp [calculate_cn_ca, np_interp_cl_modified, np_interp_cd]

theorem calculate_cn_ca_no_table (u2 : Bool) (sinK cosK : K → K) (aoa : K) :
    calculate_cn_ca ⟨u2, false, false⟩ sinK cosK aoa = none := by
  simp [calculate_cn_ca]

/-- Core symmetry of the cn/ca formulas in `Airfoil._calculate_cn_ca`:
with any lift/drag curves whose lift vanishes at zero, `cn` is odd and
`ca` is even in the angle. -/
theorem cn_ca_expr_symm (sinK cosK : K → K) (hs : sinK 0 = 0)
    (clv cdv : K → K) (hcl0 : clv 0 = 0) (a : K) :
    sign_correction (-a) * (clv |(-a)| * cosK |(-a)| + cdv |(-a)| * sinK |(-a)|)
        = -(sign_correction a * (clv |a| * cosK |a| + cdv |a| * sinK |a|)) ∧
      -clv |(-a)| * sinK |(-a)| + cdv |(-a)| * cosK |(-a)|
        = -clv |a| * sinK |a| + cdv |a| * cosK |a| := by
  rw [abs_neg]
  refine ⟨?_, rfl⟩
  rcases lt_trichotomy a 0 with h | h | h
  · rw [sign_correction, sign_correction, if_neg (not_le.mpr h),
      if_pos (neg_nonneg.mpr h.le)]
    ring
  · subst h
    rw [neg_zero, abs_zero, hcl0, hs]
    ring
  · rw [sign_correction, sign_correction, if_pos h.le,
      if_neg (not_le.mpr (neg_neg_iff_pos.mpr h))]
    ring

/-- C2: for every angle `a`, `Airfoil.get_aero_coef` gives an even
axial coefficient `ca` and an odd normal coefficient `cn` (and, as a
byproduct, an even slope `cn_alpha`): evaluating at `-a` returns the
result at `a` with only the sign of `cn` flipped. -/
theorem airfoil_cn_odd_ca_even (cfg : AirfoilCfg) (sinK cosK : K → K) (piK : K)
    (hs : sinK 0 = 0) (a : K) :
    get_aero_coef cfg sinK cosK piK (-a) =
      (get_aero_coef cfg sinK cosK piK a).map fun t => (-t.1, t.2.1, t.2.2) := by
  obtain ⟨u2, uw, um⟩ := cfg
  have halpha : ∀ cn : K,
      calculate_cn_alpha_val ⟨u2, uw, um⟩ piK (-cn) (-a)
        = calculate_cn_alpha_val ⟨u2, uw, um⟩ piK cn a := by
    intro cn
    rw [calculate_cn_alpha_val, calculate_cn_alpha_val, neg_div_neg_eq]
  cases uw with
  | true =>
      have h := cn_ca_expr_symm sinK cosK hs
        (fun x => interpPts x ((aoa_cl (K := K)).zip cl_list))
        (fun x => interpPts x ((aoa_cd (K := K)).zip cd_list))
        (cl_tables_at_zero (K := K)).1 a
      rw [get_aero_coef, get_aero_coef, calculate_cn_ca_raw, calculate_cn_ca_raw]
      simp only [Option.map_some']
      rw [h.1, h.2, halpha]
  | false =>
      cases um with
      | true =>
          have h := cn_ca_expr_symm sinK cosK hs
            (fun x => interpPts x ((aoa_cl_modified (K := K)).zip cl_list_modified))
            (fun x => interpPts x ((aoa_cd (K := K)).zip cd_list))
            (cl_tables_at_zero (K := K)).2 a
          rw [get_aero_coef, get_aero_coef, calculate_cn_ca_modified,
            calculate_cn_ca_modified]
          simp only [Option.map_some']
          rw [h.1, h.2, halpha]
      | false =>
          rw [get_aero_coef, get_aero_coef, calculate_cn_ca_no_table,
            calculate_cn_ca_no_table]
          rfl

/-- C1 (code bug): with fins enabled and `aoa = actuator_angle` — in
particular at `aoa = 0, actuator_angle = 0`, where the claim says the
`0.0001` substitution protects every path — the control-fin airfoil
slope division `cn / aoa` is executed at angle exactly `0`: the
substitution is applied to the main-fin angle only, while
`aoa_ctrl_fin` is formed from the unsubstituted angle of attack. -/
theorem control_fin_slope_division_at_zero :
    (0 : ℚ) ∈ slopeDivisionAngles true 0 0 ∧
      aoa_substitute (0 : ℚ) = 0.0001 ∧ aoa_substitute (0 : ℚ) ≠ 0 := by
  refine ⟨?_, rfl, by norm_num [aoa_substitute]⟩
  simp [slopeDivisionAngles]

/-- C3 counterexample: at `mach = 0` the stored Mach is clamped to
`0.001`, but `beta` is computed from the raw argument: its radicand is
`1`, not the `1 - 0.001²` the claim requires (and under any strictly
monotone square root the resulting `beta` values differ; the identity
function witnesses this concretely). -/
theorem beta_not_from_clamped_mach :
    mach_clamped (0 : ℚ) = 0.001 ∧
      beta_of (id : ℚ → ℚ) 0 ≠ id (beta_radicand (mach_clamped (0 : ℚ))) := by
  constructor
  · norm_num [mach_clamped]
  · norm_num [beta_of, beta_radicand, mach_clamped]

/-- C3 as amended: the solver stores a Mach number clamped to a minimum
of `0.001`, but the Prandtl-Glauert factor `beta = sqrt(1 - mach²)` is
computed from the original, unclamped `mach` argument. -/
theorem mach_clamp_beta_unclamped (sqrtK : K → K) (mach : K) :
    (0.001 : K) ≤ mach_clamped mach ∧
      (mach < 0.001 → mach_clamped mach = 0.001) ∧
      ((0.001 : K) ≤ mach → mach_clamped mach = mach) ∧
      beta_of sqrtK mach = sqrtK (1 - mach ^ 2) := by
  refine ⟨?_, fun h => if_pos h, fun h => if_neg (not_lt.mpr h), rfl⟩
  rw [mach_clamped]
  rcases lt_or_le mach 0.001 with h | h
  · rw [if_pos h]
  · rw [if_neg (not_lt.mpr h)]
    exact h

/-- Witness for `mach_clamp_beta_unclamped` at `mach = 0`. -/
theorem mach_clamp_beta_unclamped_witness :
    (0.001 : ℚ) ≤ mach_clamped 0 ∧
      ((0 : ℚ) < 0.001 → mach_clamped (0 : ℚ) = 0.001) ∧
      ((0.001 : ℚ) ≤ 0 → mach_clamped (0 : ℚ) = 0) ∧
      beta_of (id : ℚ → ℚ) 0 = id (1 - (0 : ℚ) ^ 2) :=
  mach_clamp_beta_unclamped id 0

theorem padOutputs_false (alts : List K) :
    padOutputs alts false = List.replicate alts.length false := by
  induction alts with
  | nil => rfl
  | cons a rest ih =>
      rw [padOutputs]
      have hstep : is_in_the_pad_step a false = false := by
        rw [is_in_the_pad_step]
        split <;> rfl
      rw [hstep, ih, List.length_cons, List.replicate_succ]

/-- C9: starting from the pad (`flag = true`), the sequence of values
returned by `is_in_the_pad` is exactly the one-way latch: the i-th
return is true iff every altitude up to and including the i-th stayed
at or below `0.2`; hence it flips to false at the first altitude above
`0.2` and stays false afterwards, regardless of later altitudes, and
`reset_variables` restores the flag to true. -/
theorem pad_latch (alts : List K) (r : RocketState K) :
    padOutputs alts true = padLatchSpec alts ∧
      (reset_variables r).is_in_the_pad_flag = true := by
  refine ⟨?_, rfl⟩
  induction alts with
  | nil => rfl
  | cons a rest ih =>
      rw [padOutputs]
      by_cases ha : (0.2 : K) < a
      · have hstep : is_in_the_pad_step a true = false := by
          rw [is_in_the_pad_step, if_pos ⟨ha, rfl⟩]
        rw [hstep, padOutputs_false]
        have hmem : ∀ b ∈ padLatchSpec (a :: rest), b = false := by
          intro b hb
          rw [padLatchSpec] at hb
          simp only [List.mem_map, List.mem_range] at hb
          obtain ⟨i, _, hbi⟩ := hb
          rw [← hbi, List.take_succ_cons, List.all_cons]
          simp [not_le.mpr ha]
        have hlen : (padLatchSpec (a :: rest)).length = rest.length + 1 := by
          rw [padLatchSpec, List.length_map, List.length_range, List.length_cons]
        rw [List.eq_replicate_iff.mpr ⟨hlen, hmem⟩, List.replicate_succ]
      · have hstep : is_in_the_pad_step a true = true := by
          rw [is_in_the_pad_step, if_neg]
          intro hc
          exact ha hc.1
        rw [hstep, ih, padLatchSpec, padLatchSpec, List.length_cons,
          List.range_succ_eq_map, List.map_cons, List.map_map]
        refine congrArg₂ List.cons ?_ (List.map_congr_left ?_)
        · simp [not_lt.mp ha]
        · intro i _
          simp only [Function.comp_apply, List.take_succ_cons, List.all_cons]
          simp [not_lt.mp ha]

/-- The floor applied by `get_thrust` is a `max` with `0.001`. -/
theorem thrust_floor_eq_max (th : K) :
    (if th < 0.001 then 0.001 else th) = max th 0.001 := by
  rcases lt_or_le th 0.001 with h | h
  · rw [if_pos h, max_eq_right h.le]
  · rw [if_neg (not_lt.mpr h), max_eq_left h]

/-- C10: a freshly constructed `Rocket` (and one reset by
`reset_variables`) has the empty motor curve `[[], []]`; in that state
`burnout_time` raises an `IndexError` and `get_thrust` raises inside
`np.interp` (both modelled by `none`), and only after `set_motor`
supplies a non-empty curve does `get_thrust` return a numeric value. -/
theorem fresh_motor_queries_fail (r : RocketState K) (t t_launch : K)
    (data : List K × List K) (h1 : data.1 ≠ [])
    (h2 : data.1.length = data.2.length) :
    (rocketInit : RocketState K).motor = ([], []) ∧
      (reset_variables r).motor = ([], []) ∧
      burnout_time (rocketInit : RocketState K) = none ∧
      get_thrust (rocketInit : RocketState K) t t_launch = none ∧
      burnout_time (reset_variables r) = none ∧
      get_thrust (reset_variables r) t t_launch = none ∧
      (get_thrust (set_motor r data) t t_launch).isSome = true := by
  refine ⟨rfl, rfl, rfl, rfl, rfl, rfl, ?_⟩
  rw [get_thrust, set_motor,
    np_interp_eq _ _ _ ⟨h2, fun h => h1 (List.length_eq_zero.mp h)⟩]
  rfl

/-- Witness for `fresh_motor_queries_fail` on the curve
`([0, 1], [2, 3])`. -/
theorem fresh_motor_queries_fail_witness :
    (rocketInit : RocketState ℚ).motor = ([], []) ∧
      (reset_variables (rocketInit : RocketState ℚ)).motor = ([], []) ∧
      burnout_time (rocketInit : RocketState ℚ) = none ∧
      get_thrust (rocketInit : RocketState ℚ) 0 0 = none ∧
      burnout_time (reset_variables (rocketInit : RocketState ℚ)) = none ∧
      get_thrust (reset_variables (rocketInit : RocketState ℚ)) 0 0 = none ∧
      (get_thrust (set_motor (rocketInit : RocketState ℚ) ([0, 1], [2, 3]))
          0 0).isSome = true :=
  fresh_motor_queries_fail rocketInit 0 0 ([0, 1], [2, 3]) (by decide) rfl

/-- C8 (amended): on a non-empty, time-monotone motor curve,
`get_thrust` returns the piecewise-linear interpolation of the curve at
`t - t_launch` floored at `0.001`; the result is never below `0.001`;
and for a query with `t < t_launch` (before a first sample taken at a
non-negative time) it returns the first sample's thrust value floored
at `0.001`. -/
theorem get_thrust_closed_form (r : RocketState K) (ts fs : List K)
    (t t_launch : K) (hlen : ts.length = fs.length) (hne : ts.length ≠ 0) :
    get_thrust (set_motor r (ts, fs)) t t_launch
      = some (max (interpPts (t - t_launch) (ts.zip fs)) 0.001) := by
  show (np_interp (t - t_launch) ts fs).map
      (fun th => if th < 0.001 then 0.001 else th)
    = some (max (interpPts (t - t_launch) (ts.zip fs)) 0.001)
  rw [np_interp_eq _ _ _ ⟨hlen, hne⟩, Option.map_some', thrust_floor_eq_max]

theorem get_thrust_spec (r : RocketState K) (ts fs : List K) (t t_launch : K)
    (hlen : ts.length = fs.length) (hne : ts ≠ [])
    (hmono : List.Chain' (· ≤ ·) ts) :
    get_thrust (set_motor r (ts, fs)) t t_launch
        = some (max (interpPts (t - t_launch) (ts.zip fs)) 0.001) ∧
      (0.001 : K) ≤ (get_thrust (set_motor r (ts, fs)) t t_launch).getD 0 ∧
      (t < t_launch → 0 ≤ ts.headD 0 →
        get_thrust (set_motor r (ts, fs)) t t_launch
          = some (max (fs.headD 0) 0.001)) := by
  have hgt := get_thrust_closed_form r ts fs t t_launch hlen
    (fun h => hne (List.length_eq_zero.mp h))
  refine ⟨hgt, ?_, ?_⟩
  · rw [hgt, Option.getD_some]
    exact le_max_right _ _
  · intro hlt hhead
    rw [hgt]
    cases ts with
    | nil => exact absurd rfl hne
    | cons a ts2 =>
        cases fs with
        | nil => exact absurd hlen (by simp)
        | cons b fs2 =>
            rw [List.zip_cons_cons,
              interpPts_head_of_le (t - t_launch) (a, b) _ ?_]
            · rfl
            · have hx : t - t_launch < 0 := sub_neg.mpr hlt
              exact hx.le.trans (by simpa using hhead)

/-- Witness for `get_thrust_spec` on the curve `([0, 2], [5, 9])`
queried at `t = -3 < t_launch = 0`. -/
theorem get_thrust_spec_witness :
    get_thrust (set_motor (rocketInit : RocketState ℚ) ([0, 2], [5, 9])) (-3) 0
        = some (max (interpPts ((-3) - 0) (([0, 2] : List ℚ).zip [5, 9])) 0.001) ∧
      (0.001 : ℚ) ≤ (get_thrust (set_motor (rocketInit : RocketState ℚ)
          ([0, 2], [5, 9])) (-3) 0).getD 0 ∧
      ((-3 : ℚ) < 0 → 0 ≤ ([0, 2] : List ℚ).headD 0 →
        get_thrust (set_motor (rocketInit : RocketState ℚ) ([0, 2], [5, 9]))
            (-3) 0 = some (max (([5, 9] : List ℚ).headD 0) 0.001)) :=
  get_thrust_spec rocketInit [0, 2] [5, 9] (-3) 0 rfl (by decide)
    (List.chain'_cons.mpr ⟨by norm_num, List.chain'_singleton 2⟩)

/-- C8 counterexample: on the motor curve `([0, 1], [0, 10])` (first
thrust sample `0`), a query before ignition returns the `0.001` floor,
not the first sample's thrust value `0` as the claim states. -/
theorem get_thrust_floor_overrides_first_sample :
    get_thrust (set_motor (rocketInit : RocketState ℚ) ([0, 1], [0, 10])) (-1) 0
        = some 0.001 ∧
      (0.001 : ℚ) ≠ ([0, 10] : List ℚ).headD 0 := by
  constructor
  · rw [get_thrust_closed_form (rocketInit : RocketState ℚ) [0, 1] [0, 10]
      (-1) 0 rfl (by decide)]
    show some (max (interpPts ((-1 : ℚ) - 0) [(0, 0), (1, 10)]) 0.001)
      = some 0.001
    rw [interpPts_head_of_le ((-1 : ℚ) - 0) (0, 0) _ (by norm_num),
      max_eq_right (by norm_num)]
  · norm_num

theorem segPairs_length (dims : List (K × K)) :
    (segPairs dims).length = dims.length - 1 := by
  rw [segPairs, List.length_zip, List.length_tail]
  exact min_eq_right (Nat.sub_le _ _)

/-- C6: for every configuration with `N ≥ 2` stations accepted by
`_update_rocket_dim`, `station_cross_area` has exactly `N` entries and
its first entry is `0`, while `component_plan_area`,
`component_volume`, `component_centroid`, `component_cn`,
`component_cn_alpha` and `component_cm` each have exactly `N - 1`
entries. -/
theorem update_rocket_dim_lengths (piK : K) (sqrtK : K → K) (ogive : Bool)
    (dims : List (K × K)) (N : ℕ) (hN : dims.length = N) (h2 : 2 ≤ N)
    (A : BodyArrays K) (hA : update_rocket_dim piK sqrtK ogive dims = some A) :
    A.station_cross_area.length = N ∧
      A.station_cross_area.head? = some 0 ∧
      A.component_plan_area.length = N - 1 ∧
      A.component_volume.length = N - 1 ∧
      A.component_centroid.length = N - 1 ∧
      A.component_cn.length = N - 1 ∧
      A.component_cn_alpha.length = N - 1 ∧
      A.component_cm.length = N - 1 := by
  rw [update_rocket_dim] at hA
  split at hA
  · subst hN
    obtain rfl : _ = A := Option.some.inj hA
    cases ogive <;>
      refine ⟨?_, ?_, ?_, ?_, ?_, ?_, ?_, ?_⟩ <;>
        simp [station_cross_area_of, component_plan_area_of,
          component_volume_of, component_centroid_of, segPairs_length] <;>
        omega
  · exact absurd hA (Option.some_ne_none A).symm

theorem update_rocket_dim_dims1 :
    update_rocket_dim (3 : ℚ) id false dims1 = some bodyArraysExample := by
  rw [update_rocket_dim, if_pos]
  · rw [Option.some.injEq, bodyArraysExample]
    norm_num [station_cross_area_of, component_plan_area_of,
      component_volume_of, component_centroid_of, area_wet_component_of,
      maximum_diameter, first_seg_len, segPairs, dims1, List.foldl,
      List.replicate, BodyArrays.mk.injEq]
  · refine ⟨by norm_num [dims1], by norm_num [maximum_diameter, dims1,
      List.foldl], ?_⟩
    intro p hp
    simp only [segPairs, dims1] at hp
    norm_num at hp
    rcases hp with h | h <;> rw [h] <;> norm_num

/-- Witness for `update_rocket_dim_lengths` on `dims1` (N = 3). -/
theorem update_rocket_dim_lengths_witness :
    dims1.length = 3 ∧ 2 ≤ 3 ∧
      (bodyArraysExample.station_cross_area.length = 3 ∧
        bodyArraysExample.station_cross_area.head? = some 0 ∧
        bodyArraysExample.component_plan_area.length = 3 - 1 ∧
        bodyArraysExample.component_volume.length = 3 - 1 ∧
        bodyArraysExample.component_centroid.length = 3 - 1 ∧
        bodyArraysExample.component_cn.length = 3 - 1 ∧
        bodyArraysExample.component_cn_alpha.length = 3 - 1 ∧
        bodyArraysExample.component_cm.length = 3 - 1) :=
  ⟨rfl, by norm_num,
    update_rocket_dim_lengths 3 id false dims1 3 rfl (by norm_num)
      bodyArraysExample update_rocket_dim_dims1⟩

theorem pressure_drag_loop_cons (atanK sinK : K → K)
    (p : (K × K) × (K × K)) (rest : List ((K × K) × (K × K)))
    (phi0 : Option K) :
    pressure_drag_loop atanK sinK (p :: rest) phi0 =
      if p.2.1 - p.1.1 = 0 then
        match phi0 with
        | none => none
        | some phi =>
            (pressure_drag_loop atanK sinK rest (some phi)).map
              fun cds => 0.8 * sinK phi ^ 2 :: cds
      else
        (pressure_drag_loop atanK sinK rest
            (some (atanK ((p.2.2 / 2 - p.1.2 / 2) / (p.2.1 - p.1.1))))).map
          fun cds =>
            0.8 * sinK (atanK ((p.2.2 / 2 - p.1.2 / 2) / (p.2.1 - p.1.1))) ^ 2
              :: cds := rfl

theorem pressure_drag_loop_clean (atanK sinK : K → K)
    (l : List ((K × K) × (K × K))) (phi0 : Option K)
    (h : ∀ p ∈ l, p.2.1 - p.1.1 ≠ 0) :
    pressure_drag_loop atanK sinK l phi0 =
      some (l.map fun p =>
        0.8 * sinK (atanK ((p.2.2 / 2 - p.1.2 / 2) / (p.2.1 - p.1.1))) ^ 2) := by
  induction l generalizing phi0 with
  | nil => rfl
  | cons p rest ih =>
      rw [pressure_drag_loop_cons, if_neg (h p (List.mem_cons_self p rest)),
        ih _ (fun q hq => h q (List.mem_cons_of_mem p hq)), Option.map_some',
        List.map_cons]

/-- C5 counterexample: a configuration containing a zero-length segment
is accepted by `_update_rocket_dim` without any error at configuration
time, and the per-query pressure-drag computation also completes
(catching the division by zero and reusing the stale `phi`), i.e. the
condition is tolerated per evaluation query rather than reported once
at configuration time. -/
theorem zero_length_segment_accepted :
    ((segPairs dims0).any fun p => decide (p.2.1 - p.1.1 = 0)) = true ∧
      (update_rocket_dim (3 : ℚ) id false dims0).isSome = true ∧
      calculate_pressure_drag (id : ℚ → ℚ) id false dims0
        = some [1 / 5, 1 / 5, 0] := by
  refine ⟨by norm_num [segPairs, dims0], ?_, ?_⟩
  · rw [update_rocket_dim, if_pos]
    · rfl
    · refine ⟨by norm_num [dims0], by norm_num [maximum_diameter, dims0,
        List.foldl], ?_⟩
      intro p hp
      simp only [segPairs, dims0] at hp
      norm_num at hp
      rcases hp with h | h | h <;> rw [h] <;> norm_num
  · rw [calculate_pressure_drag]
    have hseg : segPairs dims0
        = [((0, 0), (1, 1)), ((1, 1), (1, 1)), ((1, 1), (2, 1))] := rfl
    rw [hseg]
    norm_num [pressure_drag_loop_cons, pressure_drag_loop]

/-- C5 as amended: a zero-length segment is not checked at
configuration time — `_update_rocket_dim` accepts any station list with
at least two stations, non-zero maximum diameter and no segment with
`r1 + r2 = 0`, regardless of segment lengths — while for valid
configurations (all segment lengths non-zero) the per-query
pressure-drag computation performs no zero-length division and takes
the clean arctan path on every segment. -/
theorem zero_length_segment_behavior (piK : K) (sqrtK atanK sinK : K → K)
    (ogive : Bool) (dims : List (K × K)) (h2 : 2 ≤ dims.length)
    (hd : maximum_diameter dims ≠ 0)
    (hr : ∀ p ∈ segPairs dims, p.1.2 / 2 + p.2.2 / 2 ≠ 0) :
    (update_rocket_dim piK sqrtK ogive dims).isSome = true ∧
      ((∀ p ∈ segPairs dims, p.2.1 - p.1.1 ≠ 0) →
        calculate_pressure_drag atanK sinK ogive dims = some
          (if ogive then
            ((segPairs dims).map fun p =>
              0.8 * sinK (atanK ((p.2.2 / 2 - p.1.2 / 2)
                / (p.2.1 - p.1.1))) ^ 2).set 0 0
          else
            (segPairs dims).map fun p =>
              0.8 * sinK (atanK ((p.2.2 / 2 - p.1.2 / 2)
                / (p.2.1 - p.1.1))) ^ 2)) := by
  constructor
  · rw [update_rocket_dim, if_pos ⟨h2, hd, hr⟩]
    rfl
  · intro hl
    rw [calculate_pressure_drag, pressure_drag_loop_clean atanK sinK _ none hl,
      Option.map_some']

/-- Witness for `zero_length_segment_behavior` on the valid body
`dims1`. -/
theorem zero_length_segment_behavior_witness :
    (update_rocket_dim (3 : ℚ) id false dims1).isSome = true ∧
      ((∀ p ∈ segPairs dims1, p.2.1 - p.1.1 ≠ 0) →
        calculate_pressure_drag (id : ℚ → ℚ) id false dims1 = some
          (if false then
            ((segPairs dims1).map fun p =>
              0.8 * id (id ((p.2.2 / 2 - p.1.2 / 2)
                / (p.2.1 - p.1.1))) ^ 2).set 0 0
          else
            (segPairs dims1).map fun p =>
              0.8 * id (id ((p.2.2 / 2 - p.1.2 / 2)
                / (p.2.1 - p.1.1))) ^ 2)) :=
  zero_length_segment_behavior 3 id id id false dims1 (by norm_num [dims1])
    (by norm_num [maximum_diameter, dims1, List.foldl])
    (by
      intro p hp
      simp only [segPairs, dims1] at hp
      norm_num at hp
      rcases hp with h | h <;> rw [h] <;> norm_num)

theorem cpContribs_slope_sum (cn_alpha centroid : List K)
    (dims : List (K × K)) (use_fins : Bool) (fin_cp fin_slope : K × K)
    (hc : cn_alpha.length ≤ centroid.length)
    (hd : cn_alpha.length ≤ dims.length) :
    ((cpContribs cn_alpha centroid dims use_fins fin_cp fin_slope).map
        fun c => c.2).sum
      = (if use_fins
          then cn_alpha.sum + fin_slope.1 + fin_slope.2 else cn_alpha.sum) := by
  have hzlen : cn_alpha.length ≤ (centroid.zip dims).length := by
    rw [List.length_zip]
    exact le_min hc hd
  rw [cpContribs, List.map_append, List.sum_append, List.map_map]
  have hcomp : ((fun c : K × K => c.2)
        ∘ fun q : K × K × K × K => (q.2.1 + q.2.2.1, q.1))
      = fun q : K × K × K × K => q.1 := rfl
  rw [hcomp, List.map_fst_zip _ _ hzlen]
  cases use_fins
  · simp
  · simp
    ring

theorem cpContribs_moment_sum (cn_alpha centroid : List K)
    (dims : List (K × K)) (use_fins : Bool) (fin_cp fin_slope : K × K) :
    ((cpContribs cn_alpha centroid dims use_fins fin_cp fin_slope).map
        fun c => c.1 * c.2).sum
      = (if use_fins
          then ((cn_alpha.zip (centroid.zip dims)).map
                fun q => (q.2.1 + q.2.2.1) * q.1).sum
              + fin_cp.1 * fin_slope.1 + fin_cp.2 * fin_slope.2
          else ((cn_alpha.zip (centroid.zip dims)).map
              fun q => (q.2.1 + q.2.2.1) * q.1).sum) := by
  rw [cpContribs, List.map_append, List.sum_append, List.map_map]
  have hcomp : ((fun c : K × K => c.1 * c.2)
        ∘ fun q : K × K × K × K => (q.2.1 + q.2.2.1, q.1))
      = fun q : K × K × K × K => (q.2.1 + q.2.2.1) * q.1 := rfl
  rw [hcomp]
  cases use_fins
  · simp
  · simp
    ring

/-- C7: the CP computed by `_calculate_cp_position` is the weighted
average of contributor locations by their local CN slopes — body
segments (centroid plus station position) and, with fins enabled, both
fins — i.e. `Σ location*slope / Σ slope`; and when every contributing
slope is zero it falls back to `component_centroid[0]`, the first body
segment's centroid. -/
theorem cp_weighted_average (cn_alpha centroid : List K)
    (dims : List (K × K)) (use_fins : Bool) (fin_cp fin_slope : K × K)
    (hc : cn_alpha.length ≤ centroid.length)
    (hd : cn_alpha.length ≤ dims.length) :
    (((cpContribs cn_alpha centroid dims use_fins fin_cp fin_slope).map
          fun c => c.2).sum ≠ 0 →
        calculate_cp_position cn_alpha centroid dims use_fins fin_cp fin_slope
          = ((cpContribs cn_alpha centroid dims use_fins fin_cp
                fin_slope).map fun c => c.1 * c.2).sum
            / ((cpContribs cn_alpha centroid dims use_fins fin_cp
                fin_slope).map fun c => c.2).sum) ∧
      ((∀ c ∈ cpContribs cn_alpha centroid dims use_fins fin_cp fin_slope,
          c.2 = 0) →
        calculate_cp_position cn_alpha centroid dims use_fins fin_cp fin_slope
          = centroid.headD 0) := by
  have hsnd := cpContribs_slope_sum cn_alpha centroid dims use_fins
    fin_cp fin_slope hc hd
  have hmom := cpContribs_moment_sum cn_alpha centroid dims use_fins
    fin_cp fin_slope
  constructor
  · intro hS
    rw [hsnd] at hS
    simp only [calculate_cp_position]
    rw [if_pos hS, hsnd, hmom]
  · intro hz
    have hb0 : ((cpContribs cn_alpha centroid dims use_fins fin_cp
        fin_slope).map fun c => c.2).sum = 0 := by
      apply List.sum_eq_zero
      intro x hx
      obtain ⟨c, hcmem, rfl⟩ := List.mem_map.mp hx
      exact hz c hcmem
    rw [hsnd] at hb0
    simp only [calculate_cp_position]
    rw [if_neg (not_not_intro hb0)]

/-- Witness for `cp_weighted_average`: two body segments with slopes
`[1, 1]`, centroids `[1, 3]`, stations `[(0,0), (2,2)]`, fins off. -/
theorem cp_weighted_average_witness :
    (((cpContribs [1, 1] [1, 3] [(0, 0), (2, 2)] false (9, 9)
            ((0 : ℚ), (0 : ℚ))).map fun c => c.2).sum ≠ 0 →
        calculate_cp_position [1, 1] [1, 3] [(0, 0), (2, 2)] false (9, 9)
            ((0 : ℚ), (0 : ℚ))
          = (((cpContribs [1, 1] [1, 3] [(0, 0), (2, 2)] false (9, 9)
                ((0 : ℚ), (0 : ℚ))).map fun c => c.1 * c.2).sum)
            / (((cpContribs [1, 1] [1, 3] [(0, 0), (2, 2)] false (9, 9)
                ((0 : ℚ), (0 : ℚ))).map fun c => c.2).sum)) ∧
      ((∀ c ∈ cpContribs [1, 1] [1, 3] [(0, 0), (2, 2)] false (9, 9)
          ((0 : ℚ), (0 : ℚ)), c.2 = 0) →
        calculate_cp_position [1, 1] [1, 3] [(0, 0), (2, 2)] false (9, 9)
            ((0 : ℚ), (0 : ℚ))
          = ([1, 3] : List ℚ).headD 0) :=
  cp_weighted_average [1, 1] [1, 3] [(0, 0), (2, 2)] false (9, 9) (0, 0)
    (by norm_num) (by norm_num)

theorem coneCylCN_eq (a : ℝ) (h0 : a ≠ 0) (hpos : 0 ≤ a) :
    coneCylCN a
      = -(2 * Real.sin a + 33 / (5 * Real.pi) * Real.sin a ^ 2) := by
  have hpi : Real.pi ≠ 0 := Real.pi_ne_zero
  rw [coneCylCN, calculate_total_cn_nofins]
  simp only [station_cross_area_of, component_plan_area_of, segPairs,
    coneCylDims, maximum_diameter, aoa_substitute, if_neg h0,
    abs_of_nonneg hpos, List.foldl, List.zip_cons_cons, List.map_cons,
    List.map_nil, List.tail_cons, List.zipWith, List.sum_cons,
    List.sum_nil, if_pos hpos]
  norm_num
  field_simp
  ring

/-- C4 counterexample: for the cone-cylinder body with fins disabled,
the CN returned by evaluate is *not* monotonically non-decreasing on
`[0°, 90°]`: at the larger angle `π/2` it is strictly smaller than at
`π/6` (positive angles of attack produce negative CN under the solver's
sign convention, and its magnitude grows with the angle). -/
theorem coneCyl_cn_not_monotone :
    0 ≤ Real.pi / 6 ∧ Real.pi / 6 ≤ Real.pi / 2 ∧
      Real.pi / 2 ≤ Real.pi / 2 ∧
      coneCylCN (Real.pi / 2) < coneCylCN (Real.pi / 6) := by
  have hpi := Real.pi_pos
  refine ⟨by linarith, by linarith, le_rfl, ?_⟩
  rw [coneCylCN_eq (Real.pi / 6) (by positivity) (by linarith),
    coneCylCN_eq (Real.pi / 2) (by positivity) (by linarith),
    Real.sin_pi_div_six, Real.sin_pi_div_two]
  have hc : 0 < 33 / (5 * Real.pi) := by positivity
  nlinarith

/-- C4 (amended): for the cone-cylinder body with fins disabled, the CN
returned by evaluate is monotonically non-increasing in the angle of
attack over `[0.0001, π/2]` radians (equivalently, its magnitude is
non-decreasing; the left endpoint reflects the solver's substitution of
`0.0001` for an exactly-zero angle, which maps `CN(0)` to
`CN(0.0001)`). -/
theorem coneCyl_cn_antitone (a1 a2 : ℝ) (h1 : 0.0001 ≤ a1) (h12 : a1 ≤ a2)
    (h2 : a2 ≤ Real.pi / 2) : coneCylCN a2 ≤ coneCylCN a1 := by
  have hpi := Real.pi_pos
  have ha1pos : (0 : ℝ) < a1 := lt_of_lt_of_le (by norm_num) h1
  have ha2pos : (0 : ℝ) < a2 := lt_of_lt_of_le ha1pos h12
  rw [coneCylCN_eq a1 ha1pos.ne' ha1pos.le,
    coneCylCN_eq a2 ha2pos.ne' ha2pos.le]
  have hmem1 : a1 ∈ Set.Icc (-(Real.pi / 2)) (Real.pi / 2) :=
    ⟨by linarith, h12.trans h2⟩
  have hmem2 : a2 ∈ Set.Icc (-(Real.pi / 2)) (Real.pi / 2) :=
    ⟨by linarith, h2⟩
  have hs : Real.sin a1 ≤ Real.sin a2 :=
    Real.strictMonoOn_sin.monotoneOn hmem1 hmem2 h12
  have hs1nn : 0 ≤ Real.sin a1 :=
    Real.sin_nonneg_of_nonneg_of_le_pi ha1pos.le (by linarith [hmem1.2])
  have hsq : Real.sin a1 ^ 2 ≤ Real.sin a2 ^ 2 := by nlinarith
  have hc : (0 : ℝ) < 33 / (5 * Real.pi) := by positivity
  have hcs : 33 / (5 * Real.pi) * Real.sin a1 ^ 2
      ≤ 33 / (5 * Real.pi) * Real.sin a2 ^ 2 :=
    mul_le_mul_of_nonneg_left hsq hc.le
  linarith

/-- Witness for `coneCyl_cn_antitone` at `a1 = π/6`, `a2 = π/2`. -/
theorem coneCyl_cn_antitone_witness :
    (0.0001 : ℝ) ≤ Real.pi / 6 ∧ Real.pi / 6 ≤ Real.pi / 2 ∧
      Real.pi / 2 ≤ Real.pi / 2 ∧
      coneCylCN (Real.pi / 2) ≤ coneCylCN (Real.pi / 6) := by
  have hpi3 := Real.pi_gt_three
  have h1 : (0.0001 : ℝ) ≤ Real.pi / 6 := by linarith
  have h12 : Real.pi / 6 ≤ Real.pi / 2 := by linarith
  exact ⟨h1, h12, le_rfl, coneCyl_cn_antitone (Real.pi / 6) (Real.pi / 2)
    h1 h12 le_rfl⟩

/-- Witness for `airfoil_cn_odd_ca_even` at `a = 1/2` with the default
table configuration and a mock sine vanishing at `0`. -/
theorem airfoil_cn_odd_ca_even_witness :
    ((fun _ : ℚ => (0 : ℚ)) 0 = 0) ∧
      get_aero_coef defaultAirfoilCfg (fun _ : ℚ => 0) (fun _ : ℚ => 1) 3
          (-(1 / 2))
        = (get_aero_coef defaultAirfoilCfg (fun _ : ℚ => 0) (fun _ : ℚ => 1) 3
            (1 / 2)).map fun t => (-t.1, t.2.1, t.2.2) :=
  ⟨rfl, airfoil_cn_odd_ca_even defaultAirfoilCfg (fun _ : ℚ => 0)
    (fun _ : ℚ => 1) 3 rfl (1 / 2)⟩

end AeroVECTOR

